import Mathlib

/-!
Verification development for the plugin-provisioning core of the `mise`
repository (files `src/plugins/asdf_plugin.rs` and `src/forge/vfox.rs`).

The Rust source is shallowly embedded: pure functions become Lean functions,
fallible functions return `Except`/`Option`, and effectful lifecycle routines
(`ensure_installed`, `uninstall`, `update`, `install_version_impl`) become
pure functions over an explicit environment of collaborator outcomes that also
return the trace of collaborator operations they perform.

A Rust panic (reachable through `Option::unwrap`) is modelled by a dedicated
outcome (`NormResult.panicked`, or `none` in `Option`-valued functions), kept
distinct from an ordinary `Err`.
-/

set_option maxRecDepth 8000

namespace Mise

/-- Parse errors of the external `url` crate, as far as this development
distinguishes them: a string with no scheme at all fails with
`relativeUrlWithoutBase`; `unsupported` stands for the remaining failure modes
(and for the corners of the WHATWG parser this model does not cover, see
`urlParseChars`). -/
inductive ParseErr where
  | relativeUrlWithoutBase
  | unsupported
deriving DecidableEq, Repr

/-- The part of the `url` crate's parsed `Url` value used by the source:
`host_str()` (which is `none` for cannot-be-a-base URLs such as `mailto:`)
and `path()`. -/
structure ParsedUrl where
  host : Option String
  path : String
deriving DecidableEq, Repr

/-- Characters that end the host component of an authority. -/
def isHostStop (c : Char) : Bool := c == '/' || c == '?' || c == '#'

/-- Characters that end the path component (start of query or fragment). -/
def isPathStop (c : Char) : Bool := c == '?' || c == '#'

/-- Parse the remainder of a special-scheme URL after `scheme://`: a non-empty
host up to `/`, `?` or `#`, then the path up to `?` or `#` (the empty path is
serialized as the WHATWG parser does, as a single slash). -/
def parseAfterAuthority (cs : List Char) : Except ParseErr ParsedUrl :=
  let host := cs.takeWhile (fun c => !isHostStop c)
  if host.isEmpty then .error .unsupported
  else
    let tail := cs.drop host.length
    let path := tail.takeWhile (fun c => !isPathStop c)
    .ok ⟨some (String.mk host), if path.isEmpty then "/" else String.mk path⟩

def isSchemeChar (c : Char) : Bool := c.isAlphanum || c == '+' || c == '-' || c == '.'

def validScheme : List Char → Bool
  | [] => false
  | c :: rest => c.isAlpha && rest.all isSchemeChar

/-- The WHATWG special schemes. -/
def specialSchemes : List String := ["http", "https", "ws", "wss", "ftp", "file"]

/-- Model of `url::Url::parse` on a character list, restricted to the fragment
of the WHATWG grammar exercised by this repository: `http(s)://host/path`
URLs (without userinfo, port or percent-encoding) and cannot-be-a-base URLs
of non-special schemes (for which `host` is `none`, as `Url::host_str`
returns `None` on them). Strings without a scheme fail with
`relativeUrlWithoutBase`, as in the crate. Special-scheme spellings outside
this fragment are mapped to `ParseErr.unsupported`. -/
def urlParseChars (cs : List Char) : Except ParseErr ParsedUrl :=
  match cs with
  | 'h' :: 't' :: 't' :: 'p' :: 's' :: ':' :: '/' :: '/' :: rest => parseAfterAuthority rest
  | 'h' :: 't' :: 't' :: 'p' :: ':' :: '/' :: '/' :: rest => parseAfterAuthority rest
  | _ =>
    let scheme := cs.takeWhile (fun c => c != ':')
    match cs.drop scheme.length with
    | ':' :: rest =>
      if validScheme scheme then
        if specialSchemes.contains (String.mk scheme) then .error .unsupported
        else .ok ⟨none, String.mk (rest.takeWhile (fun c => !isPathStop c))⟩
      else .error .relativeUrlWithoutBase
    | _ => .error .relativeUrlWithoutBase

/-- Model of `url::Url::parse` on strings. -/
def urlParse (s : String) : Except ParseErr ParsedUrl := urlParseChars s.data

/-- Repeatedly strip a trailing `".git"`, working on the reversed character
list (`"tig."` as a reversed prefix). -/
def trimEndGitRev : List Char → List Char
  | 't' :: 'i' :: 'g' :: '.' :: rest => trimEndGitRev rest
  | cs => cs

/-- Rust's `str::trim_end_matches(".git")`: remove every trailing `".git"`
occurrence. -/
def trimEndGit (s : String) : String := String.mk (trimEndGitRev s.data.reverse).reverse

/-- Outcome of `normalize_remote` (asdf_plugin.rs:178).  `panicked` models the
`Option::unwrap` panic on `url.host_str()` when the URL parses but has no
host; `err` models the `Err` return when `Url::parse` fails. -/
inductive NormResult where
  | ok (s : String)
  | err
  | panicked
deriving DecidableEq, Repr

/-- Embedding of `normalize_remote` (asdf_plugin.rs:178-183): parse the remote
as a URL, take `host_str().unwrap()` plus the path with every trailing
`".git"` removed. -/
def normalize_remote (remote : String) : NormResult :=
  match urlParse remote with
  | .error _ => .err
  | .ok u =>
    match u.host with
    | none => .panicked
    | some host => .ok (host ++ trimEndGit u.path)

/-- The `normalized_url` binding of `is_trusted_plugin` (asdf_plugin.rs:169):
`normalize_remote(remote).unwrap_or("INVALID_URL")`.  `none` models the panic
propagating. -/
def normalized_candidate (remote : String) : Option String :=
  match normalize_remote remote with
  | .panicked => none
  | .ok s => some s
  | .err => some "INVALID_URL"

/-- Normalization of a registry entry inside the `is_some_and` closure
(asdf_plugin.rs:172): `normalize_remote(s).unwrap_or_default()`. -/
def registry_normalization (u : String) : Option String :=
  match normalize_remote u with
  | .panicked => none
  | .ok s => some s
  | .err => some ""

/-- Rust's `str::starts_with` on strings, as a character-list prefix test. -/
def strStartsWith (s p : String) : Bool := p.data.isPrefixOf s.data

/-- The `is_shorthand` binding of `is_trusted_plugin` (asdf_plugin.rs:170-172):
the name is found in the shorthand registry and the registry entry's
normalization equals the candidate's. The registry is passed explicitly
(it is a process-wide table in the source). -/
def is_shorthand_check (shorthands : List (String × String))
    (name normalizedUrl : String) : Option Bool :=
  match shorthands.lookup name with
  | none => some false
  | some s => (registry_normalization s).map (fun t => t == normalizedUrl)

/-- Embedding of `is_trusted_plugin` (asdf_plugin.rs:168-176), with the
process-wide tables `DEFAULT_SHORTHANDS` and `TRUSTED_SHORTHANDS` passed
explicitly. Result `none` models a panic inside `normalize_remote`. -/
def is_trusted_plugin (shorthands : List (String × String)) (trusted : List String)
    (name remote : String) : Option Bool :=
  (normalized_candidate remote).bind fun normalizedUrl =>
    (is_shorthand_check shorthands name normalizedUrl).map fun isShorthand =>
      !isShorthand || strStartsWith normalizedUrl "github.com/mise-plugins/"
        || trusted.contains name

/-- Modelled from the spec: the curated shorthand registry `DEFAULT_SHORTHANDS`
lives in `crate::default_shorthands`, which is not under `src/`. The spec
names one entry: the well-known name `python` maps to the canonical reviewed
URL `https://github.com/mise-plugins/rtx-python`; `community` stands for a
curated entry living outside the first-party organization. -/
def DEFAULT_SHORTHANDS : List (String × String) :=
  [("python", "https://github.com/mise-plugins/rtx-python"),
   ("community", "https://github.com/thirdparty/asdf-community")]

/-- Modelled from the spec: the explicit trusted-override set
`TRUSTED_SHORTHANDS` lives in `crate::default_shorthands`, which is not under
`src/`. The spec names no member, so the model leaves it empty. -/
def TRUSTED_SHORTHANDS : List String := []

/-! ## Lifecycle orchestrator: `ensure_installed` (asdf_plugin.rs:80-111) -/

/-- Observable collaborator operations performed by `ensure_installed`, in
order. -/
inductive EnsureEvent where
  | trustChecked (name url : String)
  | warned (name url : String)
  | prompted (name : String)
  | lockAcquired
  | installInvoked
deriving DecidableEq, Repr

/-- Errors surfaced by `ensure_installed`. `refusedUntrustedPlugin` is the
`bail!` under paranoid mode; `pluginNotInstalled` is
`Error::PluginNotInstalled(name)` after a declined prompt. -/
inductive EnsureErr where
  | refusedUntrustedPlugin
  | pluginNotInstalled (name : String)
  | lockFailed
  | installFailed
deriving DecidableEq, Repr

/-- Result of a lifecycle routine; `panicked` models a Rust panic. -/
inductive EnsureResult where
  | ok
  | err (e : EnsureErr)
  | panicked
deriving DecidableEq, Repr

/-- Modelled from the spec: the collaborator outcomes consulted by
`ensure_installed`. `yes` and `paranoid` are the settings-store booleans;
`installed` is `self.is_installed()` (the git client's `exists()`);
`repo_url` is the explicit remote override field `self.repo_url`;
`resolved_url` is the result of `self.get_repo_url(&config)` (identity
resolution from the name and the shorthand registry, not under `src/`), with
`none` modelling an `Err`; `prompt_answer` is the user's reply to the
confirmation prompt; `lock_ok` and `install_ok` are the outcomes of the
per-directory lock acquisition and of the variant-specific install. -/
structure EnsureEnv where
  yes : Bool
  paranoid : Bool
  installed : Bool
  repo_url : Option String
  resolved_url : Option String
  prompt_answer : Bool
  lock_ok : Bool
  install_ok : Bool
deriving DecidableEq, Repr

/-- The tail of `ensure_installed` (asdf_plugin.rs:107-110): acquire the
per-directory lock, then run the variant-specific install. -/
def lockAndInstall (env : EnsureEnv) (trace : List EnsureEvent) :
    EnsureResult × List EnsureEvent :=
  if !env.lock_ok then (.err .lockFailed, trace)
  else if env.install_ok then (.ok, trace ++ [.lockAcquired, .installInvoked])
  else (.err .installFailed, trace ++ [.lockAcquired, .installInvoked])

/-- Embedding of `ensure_installed` (asdf_plugin.rs:80-111): when not forcing,
return immediately if installed; when additionally not auto-confirming and no
explicit remote override is present, evaluate trust on the resolved URL
(`unwrap_or_default`), warn, hard-refuse under paranoid mode, otherwise
prompt and fail with `PluginNotInstalled` on decline; finally lock and
install. -/
def ensure_installed (shorthands : List (String × String)) (trusted : List String)
    (name : String) (env : EnsureEnv) (force : Bool) :
    EnsureResult × List EnsureEvent :=
  if force then lockAndInstall env []
  else if env.installed then (.ok, [])
  else if !env.yes && env.repo_url == none then
    let url := env.resolved_url.getD ""
    match is_trusted_plugin shorthands trusted name url with
    | none => (.panicked, [.trustChecked name url])
    | some true => lockAndInstall env [.trustChecked name url]
    | some false =>
      let t0 := [EnsureEvent.trustChecked name url, EnsureEvent.warned name url]
      if env.paranoid then (.err .refusedUntrustedPlugin, t0)
      else if env.prompt_answer then lockAndInstall env (t0 ++ [.prompted name])
      else (.err (.pluginNotInstalled name), t0 ++ [.prompted name])
  else lockAndInstall env []

/-! ## `uninstall` (asdf_plugin.rs:113-136) -/

/-- Observable filesystem-side operations of `uninstall`. -/
inductive FsOp where
  | preRemoveHook
  | removedDir
deriving DecidableEq, Repr

/-- Modelled from the spec: collaborator outcomes consulted by `uninstall`.
`installed` is `self.is_installed()`; `hook_ok` is the outcome of
`exec_hook(pr, "pre-plugin-remove")` (hook execution is not under `src/`);
`dir_exists` is `self.repo.dir.exists()`; `remove_ok` is the outcome of
`remove_all` on that directory. -/
structure UninstallEnv where
  installed : Bool
  hook_ok : Bool
  dir_exists : Bool
  remove_ok : Bool
deriving DecidableEq, Repr

/-- Embedding of `uninstall` (asdf_plugin.rs:113-136): a no-op success when the
plugin is not installed; otherwise run the pre-removal hook (its error
propagates), then remove the repository directory unless it is absent. -/
def uninstall (env : UninstallEnv) : EnsureResult × List FsOp :=
  if !env.installed then (.ok, [])
  else if !env.hook_ok then (.err .installFailed, [.preRemoveHook])
  else if !env.dir_exists then (.ok, [.preRemoveHook])
  else if env.remove_ok then (.ok, [.preRemoveHook, .removedDir])
  else (.err .installFailed, [.preRemoveHook, .removedDir])

/-! ## `update` (asdf_plugin.rs:138-165) -/

/-- Git-client and hook operations invoked by `update` after its guards. -/
inductive GitOp where
  | gitUpdate (gitref : Option String)
  | currentShaShort
  | postUpdateHook
deriving DecidableEq, Repr

/-- Modelled from the spec: collaborator outcomes consulted by `update`.
`is_symlink` is `plugin_path.is_symlink()`; `is_repo` is the git client's
`is_repo()` on that path; `update_result` is `(pre, post)` from the git
client's `update(gitref)`, `none` modelling failure; `sha_result` is
`current_sha_short()`; `hook_ok` is the post-update hook's outcome. -/
structure UpdateEnv where
  is_symlink : Bool
  is_repo : Bool
  update_result : Option (String × String)
  sha_result : Option String
  hook_ok : Bool
deriving DecidableEq, Repr

/-- Embedding of `update` (asdf_plugin.rs:138-165): a warned no-op success when
the plugin path is a symlink, or is not a recognized git repository;
otherwise run the git update, read the short SHA, and run the post-update
hook, each failure propagating. -/
def update (env : UpdateEnv) (gitref : Option String) :
    EnsureResult × List GitOp :=
  if env.is_symlink then (.ok, [])
  else if !env.is_repo then (.ok, [])
  else
    match env.update_result with
    | none => (.err .installFailed, [.gitUpdate gitref])
    | some _ =>
      match env.sha_result with
      | none => (.err .installFailed, [.gitUpdate gitref, .currentShaShort])
      | some _ =>
        if env.hook_ok then (.ok, [.gitUpdate gitref, .currentShaShort, .postUpdateHook])
        else (.err .installFailed, [.gitUpdate gitref, .currentShaShort, .postUpdateHook])

/-! ## The script-engine-backed forge (vfox.rs) -/

/-- Split a character list at every `'/'`. -/
def splitSlash : List Char → List (List Char)
  | [] => [[]]
  | '/' :: rest => [] :: splitSlash rest
  | c :: rest =>
    match splitSlash rest with
    | [] => [[c]]
    | l :: ls => (c :: l) :: ls

/-- Embedding of `vfox_to_url` (vfox.rs:76-85), shorthand recognition: the
regex `([^/]+)/([^/]+)` anchored at both ends, i.e. the string splits at a
single slash into two non-empty slash-free segments. -/
def vfoxShorthand (s : String) : Option (String × String) :=
  match splitSlash s.data with
  | [a, b] =>
    if a ≠ [] ∧ b ≠ [] then some (String.mk a, String.mk b) else none
  | _ => none

/-- Embedding of `vfox_to_url` (vfox.rs:76-85): an `owner/repo` identifier is
expanded to `https://github.com/owner/repo` and parsed; anything else is
parsed directly; a parse failure carries the original string and the
parser's error. -/
def vfox_to_url (version : String) : Except (String × ParseErr) ParsedUrl :=
  match vfoxShorthand version with
  | some (user, repo) =>
    (urlParse ("https://github.com/" ++ user ++ "/" ++ repo)).mapError
      (fun e => (version, e))
  | none => (urlParse version).mapError (fun e => (version, e))

/-- Scripting-engine operations invoked by `install_version_impl`. -/
inductive VfoxOp where
  | installPluginFromUrl (u : ParsedUrl)
  | installVersion (version : String)
deriving DecidableEq, Repr

/-- Errors of `install_version_impl`. `experimentalRequired` is the failure of
`settings.ensure_experimental("vfox backend")`. -/
inductive VfoxErr where
  | experimentalRequired
  | invalidIdentifier (original : String) (e : ParseErr)
  | registerFailed
  | engineInstallFailed
deriving DecidableEq, Repr

/-- Embedding of `install_version_impl` (vfox.rs:49-59): fail unless the
experimental settings gate is enabled; resolve the plugin URL from the forge
name with `vfox_to_url`; ask the engine to register the plugin from that URL;
then bridge into the engine's asynchronous install of the requested version.
`experimental` is the settings-store gate; `register_ok` and
`engine_install_ok` are the outcomes of the two engine calls (the engine is
an external collaborator). -/
def install_version_impl (name version : String) (experimental : Bool)
    (register_ok : Bool) (engine_install_ok : Bool) :
    Except VfoxErr Unit × List VfoxOp :=
  if !experimental then (.error .experimentalRequired, [])
  else
    match vfox_to_url name with
    | .error (orig, e) => (.error (.invalidIdentifier orig e), [])
    | .ok u =>
      if !register_ok then (.error .registerFailed, [.installPluginFromUrl u])
      else if engine_install_ok then (.ok (), [.installPluginFromUrl u, .installVersion version])
      else (.error .engineInstallFailed, [.installPluginFromUrl u, .installVersion version])

/-! ## Helper lemmas -/

/-- Stripping trailing `".git"` occurrences is invariant under appending one
more `".git"`. -/
theorem trimEndGit_append_git (p : String) :
    trimEndGit (p ++ ".git") = trimEndGit p := by
  unfold trimEndGit
  rw [String.data_append, List.reverse_append]
  have h : (".git".data.reverse ++ p.data.reverse) =
      't' :: 'i' :: 'g' :: '.' :: p.data.reverse := rfl
  rw [h]
  rfl

/-- Parsing `https://github.com/{owner}/{repo}` always succeeds, with host
`github.com` and the path running up to the first query or fragment
delimiter. -/
theorem urlParse_github (ow re : String) :
    urlParse ("https://github.com/" ++ ow ++ "/" ++ re) =
      .ok ⟨some "github.com",
        String.mk ('/' :: (ow.data ++ '/' :: re.data).takeWhile (fun c => !isPathStop c))⟩ := by
  unfold urlParse
  have hdata : ("https://github.com/" ++ ow ++ "/" ++ re).data =
      'h' :: 't' :: 't' :: 'p' :: 's' :: ':' :: '/' :: '/' ::
      'g' :: 'i' :: 't' :: 'h' :: 'u' :: 'b' :: '.' :: 'c' :: 'o' :: 'm' :: '/' ::
      (ow.data ++ '/' :: re.data) := by
    simp only [String.data_append, List.append_assoc]
    rfl
  rw [hdata]
  rfl

/-! ## Claim theorems -/

/-- C1 (counterexample): with the spec's own registry entry for `python` and an
empty trusted-override set, the candidate remote
`https://github.com/attacker/python` normalizes differently from the
canonical URL, is not in the first-party namespace, and `python` is not
whitelisted — yet `is_trusted_plugin` returns `true`, contradicting the
claim's demanded `false`. -/
theorem c1_counterexample :
    is_trusted_plugin DEFAULT_SHORTHANDS TRUSTED_SHORTHANDS "python"
      "https://github.com/attacker/python" = some true ∧
    DEFAULT_SHORTHANDS.lookup "python" =
      some "https://github.com/mise-plugins/rtx-python" ∧
    normalized_candidate "https://github.com/attacker/python" ≠
      registry_normalization "https://github.com/mise-plugins/rtx-python" ∧
    strStartsWith "github.com/attacker/python" "github.com/mise-plugins/" = false ∧
    TRUSTED_SHORTHANDS.contains "python" = false := by
  refine ⟨by decide, by decide, by decide, by decide, by decide⟩

/-- C1 (amended): for every name present in the shorthand registry mapping to
canonical URL A, and every candidate remote B whose normalization differs
from A's (with the source's `unwrap_or` defaults), `is_trusted_plugin`
returns `true` — a candidate that does not match the curated entry is
treated as an explicitly user-supplied source; the result is `false` only
when B's normalization equals A's, B is outside the first-party namespace,
and the name is not in the trusted-override set. -/
theorem c1_trusted_when_normalization_differs
    (shorthands : List (String × String)) (trusted : List String)
    (name remote canonical nb na : String)
    (hlook : shorthands.lookup name = some canonical)
    (hb : normalized_candidate remote = some nb)
    (ha : registry_normalization canonical = some na)
    (hne : nb ≠ na) :
    is_trusted_plugin shorthands trusted name remote = some true := by
  have hbeq : (na == nb) = false := beq_eq_false_iff_ne.mpr (Ne.symm hne)
  simp [is_trusted_plugin, is_shorthand_check, hb, hlook, ha, hbeq]

/-- C1 (witness): concrete instantiation of the amended claim at the
spec-modelled registry. -/
theorem c1_witness :
    is_trusted_plugin DEFAULT_SHORTHANDS TRUSTED_SHORTHANDS "community"
      "https://github.com/someoneelse/asdf-community" = some true :=
  c1_trusted_when_normalization_differs DEFAULT_SHORTHANDS TRUSTED_SHORTHANDS
    "community" "https://github.com/someoneelse/asdf-community"
    "https://github.com/thirdparty/asdf-community"
    "github.com/someoneelse/asdf-community"
    "github.com/thirdparty/asdf-community"
    (by decide) (by decide) (by decide) (by decide)

/-- C2 (code evaluated at the failing input): the name `nodejs` is absent from
the (empty) registry, so the claim demands `is_trusted_plugin` return
`true` for every remote string; on the remote `mailto:foo@bar` — which
parses as a URL without a host — the source instead panics on
`url.host_str().unwrap()`, modelled as `none`. -/
theorem c2_failing_input :
    ([] : List (String × String)).lookup "nodejs" = none ∧
    is_trusted_plugin [] [] "nodejs" "mailto:foo@bar" = none := by
  refine ⟨by decide, by decide⟩

/-- C4 (code evaluated at the failing input): `normalize_remote` panics —
rather than producing the `INVALID_URL` sentinel — on a remote that parses
as a host-less URL, and the panic propagates through `is_trusted_plugin`,
contradicting the claim that it always returns a boolean. -/
theorem c4_failing_input :
    normalize_remote "mailto:foo@bar" = NormResult.panicked ∧
    is_trusted_plugin DEFAULT_SHORTHANDS TRUSTED_SHORTHANDS "python"
      "mailto:foo@bar" = none := by
  refine ⟨by decide, by decide⟩

/-- C5 (counterexample): appending a trailing slash to a URL changes its
normalization — the source strips only trailing `".git"`, never a trailing
slash — refuting the claim's equation at the spec's canonical python URL. -/
theorem c5_counterexample :
    normalize_remote ("https://github.com/mise-plugins/rtx-python" ++ "/") ≠
      normalize_remote "https://github.com/mise-plugins/rtx-python" := by
  decide

/-- C5 (amended): normalization is invariant under a `".git"` suffix — two
URLs with the same host whose paths differ exactly by a trailing `".git"`
normalize identically; the trailing-slash half of the claim is refuted by
`c5_counterexample`. -/
theorem c5_git_suffix_invariance (u v h p : String)
    (hu : urlParse u = .ok ⟨some h, p⟩)
    (hv : urlParse v = .ok ⟨some h, p ++ ".git"⟩) :
    normalize_remote v = normalize_remote u := by
  unfold normalize_remote
  rw [hu, hv]
  simp only []
  show NormResult.ok (h ++ trimEndGit (p ++ ".git")) = NormResult.ok (h ++ trimEndGit p)
  rw [trimEndGit_append_git]

/-- C5 (witness): concrete instantiation of the `".git"` invariance. -/
theorem c5_witness :
    normalize_remote "https://github.com/thirdparty/asdf-community.git" =
      normalize_remote "https://github.com/thirdparty/asdf-community" :=
  c5_git_suffix_invariance "https://github.com/thirdparty/asdf-community"
    "https://github.com/thirdparty/asdf-community.git"
    "github.com" "/thirdparty/asdf-community" (by rfl) (by rfl)

/-- C3: with `force = false`, auto-confirm off, no explicit remote override, on
a not-installed plugin whose resolved remote is untrusted: under paranoid
mode `ensure_installed` fails with the refusal error after warning only —
no prompt, no lock, no installation; otherwise a declined prompt fails with
`PluginNotInstalled` carrying the plugin name, again with no lock and no
installation (the exact traces show this). -/
theorem c3_untrusted_failure_paths
    (shorthands : List (String × String)) (trusted : List String)
    (name : String) (env : EnsureEnv)
    (hinst : env.installed = false) (hyes : env.yes = false)
    (hover : env.repo_url = none)
    (htrust : is_trusted_plugin shorthands trusted name
      (env.resolved_url.getD "") = some false) :
    (env.paranoid = true →
      ensure_installed shorthands trusted name env false =
        (.err .refusedUntrustedPlugin,
         [.trustChecked name (env.resolved_url.getD ""),
          .warned name (env.resolved_url.getD "")])) ∧
    (env.paranoid = false → env.prompt_answer = false →
      ensure_installed shorthands trusted name env false =
        (.err (.pluginNotInstalled name),
         [.trustChecked name (env.resolved_url.getD ""),
          .warned name (env.resolved_url.getD ""),
          .prompted name])) := by
  constructor
  · intro hp
    simp [ensure_installed, hinst, hyes, hover, htrust, hp]
  · intro hp hanswer
    simp [ensure_installed, hinst, hyes, hover, htrust, hp, hanswer]

/-- C3 (witness): both failure paths at the spec-modelled registry entry
`community`, whose canonical URL is outside the first-party namespace, so
resolving to the canonical URL itself is untrusted. -/
theorem c3_witness :
    ensure_installed DEFAULT_SHORTHANDS TRUSTED_SHORTHANDS "community"
      ⟨false, true, false, none,
       some "https://github.com/thirdparty/asdf-community", false, true, true⟩ false =
      (.err .refusedUntrustedPlugin,
       [.trustChecked "community" "https://github.com/thirdparty/asdf-community",
        .warned "community" "https://github.com/thirdparty/asdf-community"]) ∧
    ensure_installed DEFAULT_SHORTHANDS TRUSTED_SHORTHANDS "community"
      ⟨false, false, false, none,
       some "https://github.com/thirdparty/asdf-community", false, true, true⟩ false =
      (.err (.pluginNotInstalled "community"),
       [.trustChecked "community" "https://github.com/thirdparty/asdf-community",
        .warned "community" "https://github.com/thirdparty/asdf-community",
        .prompted "community"]) :=
  ⟨(c3_untrusted_failure_paths DEFAULT_SHORTHANDS TRUSTED_SHORTHANDS "community"
      ⟨false, true, false, none,
       some "https://github.com/thirdparty/asdf-community", false, true, true⟩
      rfl rfl rfl (by decide)).1 rfl,
   (c3_untrusted_failure_paths DEFAULT_SHORTHANDS TRUSTED_SHORTHANDS "community"
      ⟨false, false, false, none,
       some "https://github.com/thirdparty/asdf-community", false, true, true⟩
      rfl rfl rfl (by decide)).2 rfl rfl⟩

/-- C6: identity resolution case analysis — an `owner/repo` identifier
resolves to the parse of `https://github.com/owner/repo` (which always
succeeds); any other identifier that parses as a URL resolves to that
parse; any other identifier that does not parse fails carrying the
original string and the parser's error. -/
theorem c6_identity_resolution (v : String) :
    (∀ ow re, vfoxShorthand v = some (ow, re) →
      ∃ u, vfox_to_url v = .ok u ∧
        urlParse ("https://github.com/" ++ ow ++ "/" ++ re) = .ok u) ∧
    (vfoxShorthand v = none → ∀ u, urlParse v = .ok u → vfox_to_url v = .ok u) ∧
    (vfoxShorthand v = none → ∀ e, urlParse v = .error e →
      vfox_to_url v = .error (v, e)) := by
  refine ⟨?_, ?_, ?_⟩
  · intro ow re hsh
    refine ⟨_, ?_, urlParse_github ow re⟩
    simp only [vfox_to_url, hsh, urlParse_github ow re]
    rfl
  · intro hsh u hu
    unfold vfox_to_url
    rw [hsh, hu]
    rfl
  · intro hsh e he
    unfold vfox_to_url
    rw [hsh, he]
    rfl

/-- C6 (witness): the three cases at concrete identifiers. -/
theorem c6_witness :
    vfox_to_url "nodejs/node" = .ok ⟨some "github.com", "/nodejs/node"⟩ ∧
    vfox_to_url "https://example.com/x" = .ok ⟨some "example.com", "/x"⟩ ∧
    vfox_to_url "not a url" = .error ("not a url", .relativeUrlWithoutBase) := by
  refine ⟨?_, ?_, ?_⟩
  · obtain ⟨u, h1, h2⟩ :=
      (c6_identity_resolution "nodejs/node").1 "nodejs" "node" (by decide)
    have hc : urlParse "https://github.com/nodejs/node" =
        .ok ⟨some "github.com", "/nodejs/node"⟩ := by rfl
    rw [h1, Except.ok.injEq]
    exact Except.ok.inj (h2.symm.trans hc)
  · exact (c6_identity_resolution "https://example.com/x").2.1 (by decide) _ (by rfl)
  · exact (c6_identity_resolution "not a url").2.2 (by decide) _ (by rfl)

/-- C7: when the backend is already installed and `force` is off,
`ensure_installed` returns success with an empty operation trace: no trust
evaluation, no warning, no prompt, no lock acquisition and no install
step. -/
theorem c7_installed_short_circuit
    (shorthands : List (String × String)) (trusted : List String)
    (name : String) (env : EnsureEnv) (h : env.installed = true) :
    ensure_installed shorthands trusted name env false = (.ok, []) := by
  simp [ensure_installed, h]

/-- C7 (witness): concrete instantiation on an installed plugin. -/
theorem c7_witness :
    ensure_installed DEFAULT_SHORTHANDS TRUSTED_SHORTHANDS "python"
      ⟨false, false, true, none, some "https://github.com/attacker/python",
       false, true, true⟩ false = (.ok, []) :=
  c7_installed_short_circuit DEFAULT_SHORTHANDS TRUSTED_SHORTHANDS "python"
    ⟨false, false, true, none, some "https://github.com/attacker/python",
     false, true, true⟩ rfl

/-- C8: `update` on a plugin directory that is a symlink, or is not a
recognized git repository, returns success with an empty git-operation
trace, with or without a ref argument. -/
theorem c8_update_guard (env : UpdateEnv) (gitref : Option String)
    (h : env.is_symlink = true ∨ env.is_repo = false) :
    update env gitref = (.ok, []) := by
  rcases h with h | h
  · simp [update, h]
  · cases hs : env.is_symlink <;> simp [update, hs, h]

/-- C8 (witness): both guard cases, with and without a ref. -/
theorem c8_witness :
    update ⟨true, true, some ("a", "b"), some "c", true⟩ (some "main") = (.ok, []) ∧
    update ⟨false, false, some ("a", "b"), some "c", true⟩ none = (.ok, []) :=
  ⟨c8_update_guard ⟨true, true, some ("a", "b"), some "c", true⟩ (some "main")
     (Or.inl rfl),
   c8_update_guard ⟨false, false, some ("a", "b"), some "c", true⟩ none
     (Or.inr rfl)⟩

/-- C9: `uninstall` on a not-installed backend returns success with an empty
filesystem-operation trace: no pre-removal hook execution and no directory
removal. -/
theorem c9_uninstall_noop (env : UninstallEnv) (h : env.installed = false) :
    uninstall env = (.ok, []) := by
  simp [uninstall, h]

/-- C9 (witness): concrete instantiation on a never-installed backend. -/
theorem c9_witness : uninstall ⟨false, true, true, true⟩ = (.ok, []) :=
  c9_uninstall_noop ⟨false, true, true, true⟩ rfl

/-- C10: `install_version_impl` fails with the experimental-gate error and an
empty engine-operation trace whenever the gate is disabled — so the engine
is never asked to register the plugin nor to install the version — and
conversely the engine's install routine appears in the trace only when the
gate is enabled. -/
theorem c10_experimental_gate (name version : String)
    (experimental register_ok engine_install_ok : Bool) :
    (experimental = false →
      install_version_impl name version experimental register_ok engine_install_ok =
        (.error .experimentalRequired, [])) ∧
    (VfoxOp.installVersion version ∈
        (install_version_impl name version experimental register_ok
          engine_install_ok).2 →
      experimental = true) := by
  constructor
  · intro h
    subst h
    rfl
  · intro h
    cases hx : experimental
    · subst hx
      simp [install_version_impl] at h
    · rfl

/-- C10 (witness): the disabled gate at a concrete input, and the engine
install step observed in the trace only with the gate enabled. -/
theorem c10_witness :
    install_version_impl "nodejs/node" "1.0.0" false true true =
      (.error .experimentalRequired, []) ∧
    (true : Bool) = true :=
  ⟨(c10_experimental_gate "nodejs/node" "1.0.0" false true true).1 rfl,
   (c10_experimental_gate "nodejs/node" "1.0.0" true true true).2 (by decide)⟩

end Mise
